import Mathlib

/-!
Verification of the photo-studio generation orchestrator
(src/scripts/image_generator.py, src/scripts/interaction.py,
src/scripts/config.py) against its natural-language specification.

The Python code is shallowly embedded: pure computations become Lean
functions, the external image API and the per-unit generation call are
abstracted as oracles (`Nat → Option String`, mirroring the fact that the
Python helpers return a path on success and `None` on failure and catch
every exception internally), file-system effects are recorded in explicit
result fields, and machine floats appear in two places: the sharpness
metric is taken as an exact rational input, and the resize scale
arithmetic is modelled bit-exactly as IEEE 754 binary64
round-to-nearest-even on integer significands.
-/

namespace PhotoStudio

/-- A movie character entry, mirroring the dicts of
`config.py` (`name`, `prompt`, optional `scene`). -/
structure Character where
  name : String
  prompt : String
  scene : Option String
deriving Repr, DecidableEq

/-- Accumulated observable state of one batch-generation loop:
the list of successfully generated paths, the recorded failure
identifiers, the number of times the per-unit generation step ran,
and the number of `time.sleep(2)` rate-limit pauses executed. -/
structure BatchState where
  generated : List String
  failed : List String
  genCalls : Nat
  sleeps : Nat
deriving Repr, DecidableEq

/-- Initial loop state (`generated_images = []`, `failed_* = []`). -/
def initBatch : BatchState := ⟨[], [], 0, 0⟩

/-- One iteration of a batch loop in `image_generator.py`: invoke the
generation step (counted in `genCalls`), append the path on success or
the failure identifier on failure, then sleep iff `i < bound`
(the Python condition before `time.sleep(2)`). -/
def batchStep (outcome : Nat → Option String) (failName : Nat → String)
    (bound : Nat) (st : BatchState) (i : Nat) : BatchState :=
  let st1 : BatchState := { st with genCalls := st.genCalls + 1 }
  let st2 : BatchState :=
    match outcome i with
    | some p => { st1 with generated := st1.generated ++ [p] }
    | none => { st1 with failed := st1.failed ++ [failName i] }
  if i < bound then { st2 with sleeps := st2.sleeps + 1 } else st2

/-- `ImageGenerator.generate_all_images` (image_generator.py lines
271-313): `for i, character in enumerate(characters)`, call
`generate_single_image` (abstracted as the oracle `gen`, which in Python
catches all exceptions and returns `None` on failure), append to
`generated_images` or `failed_characters`, and
`if i < len(characters) - 1: time.sleep(2)`. -/
def generate_all_images (gen : Nat → Character → Option String)
    (characters : List Character) : BatchState :=
  characters.enum.foldl
    (fun st ic =>
      batchStep (fun _ => gen ic.1 ic.2) (fun _ => ic.2.name)
        (characters.length - 1) st ic.1)
    initBatch

/-- `ImageGenerator.generate_portrait_images` (lines 315-390):
`for i in range(count)`, style is `styles[i % len(styles)]` (modelled
with `getD`; Python raises on an empty style list), failure records the
style name, and the sleep guard is
`if i < min(count, len(styles)) - 1`. The per-iteration prompt build and
`_generate_with_single_photo` call are abstracted as `outcome`. -/
def generate_portrait_images (outcome : Nat → Option String)
    (styles : List String) (count : Nat) : BatchState :=
  (List.range count).foldl
    (batchStep outcome (fun i => styles.getD (i % styles.length) "")
      (min count styles.length - 1))
    initBatch

/-- `ImageGenerator.generate_couple_images` (lines 392-474):
`for i in range(count)`, failure records `str(i+1)`, sleep guard
`if i < count - 1`. The couple prompt construction and
`_generate_with_multiple_photos` call are abstracted as `outcome`. -/
def generate_couple_images (outcome : Nat → Option String)
    (count : Nat) : BatchState :=
  (List.range count).foldl
    (batchStep outcome (fun i => toString (i + 1)) (count - 1)) initBatch

/-- `ImageGenerator.generate_family_images` (lines 476-590): the loop
control is identical to the couple loop — `for i in range(count)`,
failure records `str(i+1)`, sleep guard `if i < count - 1`. -/
def generate_family_images (outcome : Nat → Option String)
    (count : Nat) : BatchState :=
  (List.range count).foldl
    (batchStep outcome (fun i => toString (i + 1)) (count - 1)) initBatch

lemma batchStep_genCalls (o : Nat → Option String) (f : Nat → String)
    (b : Nat) (st : BatchState) (i : Nat) :
    (batchStep o f b st i).genCalls = st.genCalls + 1 := by
  unfold batchStep
  cases o i <;> simp <;> split <;> simp

lemma batchStep_lens (o : Nat → Option String) (f : Nat → String)
    (b : Nat) (st : BatchState) (i : Nat) :
    (batchStep o f b st i).generated.length + (batchStep o f b st i).failed.length
      = st.generated.length + st.failed.length + 1 := by
  unfold batchStep
  cases o i <;> simp <;> split <;> simp <;> omega

lemma batchStep_sleeps (o : Nat → Option String) (f : Nat → String)
    (b : Nat) (st : BatchState) (i : Nat) :
    (batchStep o f b st i).sleeps = st.sleeps + (if i < b then 1 else 0) := by
  unfold batchStep
  cases o i <;> simp <;> split <;> simp

/-- Loop invariant for the `range`-driven batch loops. -/
lemma batch_foldl_counts (o : Nat → Option String) (f : Nat → String)
    (b : Nat) (l : List Nat) (st : BatchState) :
    (l.foldl (batchStep o f b) st).genCalls = st.genCalls + l.length ∧
    (l.foldl (batchStep o f b) st).generated.length
        + (l.foldl (batchStep o f b) st).failed.length
      = st.generated.length + st.failed.length + l.length ∧
    (l.foldl (batchStep o f b) st).sleeps
      = st.sleeps + l.countP (fun i => decide (i < b)) := by
  induction l generalizing st with
  | nil => simp
  | cons x xs ih =>
    simp only [List.foldl_cons, List.countP_cons, List.length_cons]
    obtain ⟨h1, h2, h3⟩ := ih (batchStep o f b st x)
    refine ⟨?_, ?_, ?_⟩
    · rw [h1, batchStep_genCalls]; omega
    · rw [h2, batchStep_lens]; omega
    · rw [h3, batchStep_sleeps]
      by_cases hx : x < b <;> simp [hx] <;> omega

/-- Loop invariant for the `enumerate`-driven loop of
`generate_all_images`. -/
lemma allImages_foldl_counts (gen : Nat → Character → Option String)
    (m : Nat) (l : List (Nat × Character)) (st : BatchState) :
    (l.foldl (fun s ic =>
        batchStep (fun _ => gen ic.1 ic.2) (fun _ => ic.2.name) m s ic.1) st).genCalls
      = st.genCalls + l.length ∧
    (l.foldl (fun s ic =>
        batchStep (fun _ => gen ic.1 ic.2) (fun _ => ic.2.name) m s ic.1) st).generated.length
      + (l.foldl (fun s ic =>
        batchStep (fun _ => gen ic.1 ic.2) (fun _ => ic.2.name) m s ic.1) st).failed.length
      = st.generated.length + st.failed.length + l.length ∧
    (l.foldl (fun s ic =>
        batchStep (fun _ => gen ic.1 ic.2) (fun _ => ic.2.name) m s ic.1) st).sleeps
      = st.sleeps + l.countP (fun ic => decide (ic.1 < m)) := by
  induction l generalizing st with
  | nil => simp
  | cons x xs ih =>
    simp only [List.foldl_cons, List.countP_cons, List.length_cons]
    obtain ⟨h1, h2, h3⟩ :=
      ih (batchStep (fun _ => gen x.1 x.2) (fun _ => x.2.name) m st x.1)
    refine ⟨?_, ?_, ?_⟩
    · rw [h1, batchStep_genCalls]; omega
    · rw [h2, batchStep_lens]; omega
    · rw [h3, batchStep_sleeps]
      by_cases hx : x.1 < m <;> simp [hx] <;> omega

lemma countP_range_lt (m : Nat) : ∀ n : Nat,
    (List.range n).countP (fun i => decide (i < m)) = min m n := by
  intro n
  induction n with
  | zero => simp
  | succ k ih =>
    rw [List.range_succ, List.countP_append, ih]
    by_cases hk : k < m <;> simp [hk] <;> omega

lemma countP_enum_lt (l : List Character) (m : Nat) :
    l.enum.countP (fun ic => decide (ic.1 < m)) = min m l.length := by
  have hmap : l.enum.map Prod.fst = List.range l.length := List.enum_map_fst l
  calc l.enum.countP (fun ic => decide (ic.1 < m))
      = (l.enum.map Prod.fst).countP (fun i => decide (i < m)) :=
        (List.countP_map (fun i => decide (i < m)) Prod.fst l.enum).symm
    _ = (List.range l.length).countP (fun i => decide (i < m)) := by rw [hmap]
    _ = min m l.length := countP_range_lt m l.length

/-- Claim C1: for every list of generation units of length N handed to a
batch generation function (`generate_all_images` over its character list,
and `generate_portrait_images` / `generate_couple_images` /
`generate_family_images` over their `count` iterations), the generation
step is invoked exactly N times and the number of generated paths plus
the number of recorded failure identifiers equals N — for an arbitrary
per-unit outcome oracle, so failing units never abort the rest of the
batch. -/
theorem batch_generation_conservation
    (gen : Nat → Character → Option String) (characters : List Character)
    (op oc of : Nat → Option String) (styles : List String) (count : Nat) :
    ((generate_all_images gen characters).genCalls = characters.length ∧
      (generate_all_images gen characters).generated.length
        + (generate_all_images gen characters).failed.length
        = characters.length) ∧
    ((generate_portrait_images op styles count).genCalls = count ∧
      (generate_portrait_images op styles count).generated.length
        + (generate_portrait_images op styles count).failed.length = count) ∧
    ((generate_couple_images oc count).genCalls = count ∧
      (generate_couple_images oc count).generated.length
        + (generate_couple_images oc count).failed.length = count) ∧
    ((generate_family_images of count).genCalls = count ∧
      (generate_family_images of count).generated.length
        + (generate_family_images of count).failed.length = count) := by
  refine ⟨⟨?_, ?_⟩, ⟨?_, ?_⟩, ⟨?_, ?_⟩, ⟨?_, ?_⟩⟩
  · have h := allImages_foldl_counts gen (characters.length - 1)
      characters.enum initBatch
    simpa [generate_all_images, initBatch] using h.1
  · have h := allImages_foldl_counts gen (characters.length - 1)
      characters.enum initBatch
    simpa [generate_all_images, initBatch] using h.2.1
  · have h := batch_foldl_counts op
      (fun i => styles.getD (i % styles.length) "")
      (min count styles.length - 1) (List.range count) initBatch
    simpa [generate_portrait_images, initBatch] using h.1
  · have h := batch_foldl_counts op
      (fun i => styles.getD (i % styles.length) "")
      (min count styles.length - 1) (List.range count) initBatch
    simpa [generate_portrait_images, initBatch] using h.2.1
  · have h := batch_foldl_counts oc (fun i => toString (i + 1))
      (count - 1) (List.range count) initBatch
    simpa [generate_couple_images, initBatch] using h.1
  · have h := batch_foldl_counts oc (fun i => toString (i + 1))
      (count - 1) (List.range count) initBatch
    simpa [generate_couple_images, initBatch] using h.2.1
  · have h := batch_foldl_counts of (fun i => toString (i + 1))
      (count - 1) (List.range count) initBatch
    simpa [generate_family_images, initBatch] using h.1
  · have h := batch_foldl_counts of (fun i => toString (i + 1))
      (count - 1) (List.range count) initBatch
    simpa [generate_family_images, initBatch] using h.2.1

/-- Claim C2 (counterexample): `generate_portrait_images` with a batch of
N = 2 units and a single style executes the inter-request delay 0 times,
not N − 1 = 1 times, because the sleep guard is
`i < min(count, len(styles)) - 1` rather than `i < count - 1`. -/
theorem portrait_sleep_counterexample :
    (generate_portrait_images (fun _ => some "portrait_000.jpg")
        ["Professional Business"] 2).sleeps = 0 ∧ (0 : Nat) ≠ 2 - 1 := by
  constructor
  · rfl
  · decide

/-- Claim C2 (amended): `generate_all_images`, `generate_couple_images`
and `generate_family_images` execute the 2-second delay exactly N − 1
times for a batch of N units (never after the final unit), while
`generate_portrait_images` executes it `min(count, len(styles)) − 1`
times — which equals N − 1 = count − 1 exactly when count ≤ len(styles). -/
theorem rate_limit_sleep_counts
    (gen : Nat → Character → Option String) (characters : List Character)
    (op oc of : Nat → Option String) (styles : List String) (count : Nat) :
    (generate_all_images gen characters).sleeps = characters.length - 1 ∧
    (generate_couple_images oc count).sleeps = count - 1 ∧
    (generate_family_images of count).sleeps = count - 1 ∧
    (generate_portrait_images op styles count).sleeps
      = min count styles.length - 1 := by
  refine ⟨?_, ?_, ?_, ?_⟩
  · have h := (allImages_foldl_counts gen (characters.length - 1)
      characters.enum initBatch).2.2
    rw [countP_enum_lt] at h
    have : min (characters.length - 1) characters.length
        = characters.length - 1 := by omega
    simpa [generate_all_images, initBatch, this] using h
  · have h := (batch_foldl_counts oc (fun i => toString (i + 1))
      (count - 1) (List.range count) initBatch).2.2
    rw [countP_range_lt] at h
    have : min (count - 1) count = count - 1 := by omega
    simpa [generate_couple_images, initBatch, this] using h
  · have h := (batch_foldl_counts of (fun i => toString (i + 1))
      (count - 1) (List.range count) initBatch).2.2
    rw [countP_range_lt] at h
    have : min (count - 1) count = count - 1 := by omega
    simpa [generate_family_images, initBatch, this] using h
  · have h := (batch_foldl_counts op
      (fun i => styles.getD (i % styles.length) "")
      (min count styles.length - 1) (List.range count) initBatch).2.2
    rw [countP_range_lt] at h
    have : min (min count styles.length - 1) count
        = min count styles.length - 1 := by omega
    simpa [generate_portrait_images, initBatch, this] using h

/-! ### Request payloads (`RequestBuilder` layer) -/

/-- The `generation` section of `config.json` (config.py lines 146-151);
fields are optional because the Python payload builders read them with
`dict.get(key, fallback)`. -/
structure GenerationConfig where
  default_image_count : Option Nat
  image_width : Option Nat
  image_height : Option Nat
  image_model : Option String
deriving Repr, DecidableEq

/-- The default `generation` config written by `Config._load_config`
(config.py lines 146-151). -/
def defaultGeneration : GenerationConfig :=
  ⟨some 5, some 1024, some 1024, some "doubao-seedream-4.5"⟩

/-- The `image` field of the wire payload: a single base64 data URI, an
ordered list of them, or absent (`_generate_without_photo`). -/
inductive ImageField where
  | single (b64 : String)
  | multiple (b64s : List String)
  | absent
deriving Repr, DecidableEq

/-- The wire payload assembled by the generation helpers. -/
structure Payload where
  model : String
  prompt : String
  image : ImageField
  size : String
  negative_prompt : String
  sequential_image_generation : String
  response_format : String
  watermark : Bool
  seed : Option Nat
deriving Repr, DecidableEq

/-- The standing negative prompt string repeated verbatim in every
payload builder of image_generator.py (lines 159-162, 613-616, 645-648,
670-673, 1006-1009). -/
def defaultNegativePrompt : String :=
  "blurry, distorted faces, unnatural pose, bad proportions, watermark, text, low quality, artifacts, deformed hands, extra fingers"

/-- Payload built inside `ImageGenerator.generate_single_image`
(lines 147-167): size defaults are 1024, a seed is included, and the
negative prompt is the standing default. -/
def single_image_payload (g : GenerationConfig) (prompt img : String)
    (seed : Nat) : Payload :=
  { model := g.image_model.getD "doubao-seedream-4-5-251128"
    prompt := prompt
    image := .single img
    size := toString (g.image_width.getD 1024) ++ "x"
        ++ toString (g.image_height.getD 1024)
    negative_prompt := defaultNegativePrompt
    sequential_image_generation := "disabled"
    response_format := "b64_json"
    watermark := false
    seed := some seed }

/-- Payload built by `ImageGenerator._generate_with_single_photo`
(lines 601-620): scalar image field, size defaults 2048, standing
negative prompt, no seed. -/
def single_photo_payload (g : GenerationConfig) (prompt img : String) :
    Payload :=
  { model := g.image_model.getD "doubao-seedream-4-5-251128"
    prompt := prompt
    image := .single img
    size := toString (g.image_width.getD 2048) ++ "x"
        ++ toString (g.image_height.getD 2048)
    negative_prompt := defaultNegativePrompt
    sequential_image_generation := "disabled"
    response_format := "b64_json"
    watermark := false
    seed := none }

/-- Payload built by `ImageGenerator._generate_with_multiple_photos`
(lines 633-652): list image field, standing negative prompt. -/
def multiple_photos_payload (g : GenerationConfig) (prompt : String)
    (imgs : List String) : Payload :=
  { model := g.image_model.getD "doubao-seedream-4-5-251128"
    prompt := prompt
    image := .multiple imgs
    size := toString (g.image_width.getD 2048) ++ "x"
        ++ toString (g.image_height.getD 2048)
    negative_prompt := defaultNegativePrompt
    sequential_image_generation := "disabled"
    response_format := "b64_json"
    watermark := false
    seed := none }

/-- Payload built by `ImageGenerator._generate_without_photo`
(lines 661-677): no image field, standing negative prompt. -/
def without_photo_payload (g : GenerationConfig) (prompt : String) :
    Payload :=
  { model := g.image_model.getD "doubao-seedream-4-5-251128"
    prompt := prompt
    image := .absent
    size := toString (g.image_width.getD 2048) ++ "x"
        ++ toString (g.image_height.getD 2048)
    negative_prompt := defaultNegativePrompt
    sequential_image_generation := "disabled"
    response_format := "b64_json"
    watermark := false
    seed := none }

/-- Payload built by
`ImageGenerator._generate_with_multiple_photos_and_prompts`
(lines 994-1013, the free-mode path): the caller-supplied negative
prompt is used when non-empty (Python string truthiness), otherwise
the standing default. -/
def multiple_photos_and_prompts_payload (g : GenerationConfig)
    (prompt : String) (imgs : List String) (negativePrompt : String) :
    Payload :=
  { model := g.image_model.getD "doubao-seedream-4-5-251128"
    prompt := prompt
    image := .multiple imgs
    size := toString (g.image_width.getD 2048) ++ "x"
        ++ toString (g.image_height.getD 2048)
    negative_prompt :=
      if negativePrompt == "" then defaultNegativePrompt else negativePrompt
    sequential_image_generation := "disabled"
    response_format := "b64_json"
    watermark := false
    seed := none }

/-- An edit/series/poster template (the JSON documents consumed by
`generate_edit_images`); `negative_prompt` is the optional field that
`InteractionManager` reads at interaction.py lines 889/1008/1184/1300. -/
structure EditTemplate where
  name : String
  prompt_structure : String
  negative_prompt : Option String
deriving Repr, DecidableEq

/-- Payload produced by the `generate_edit_images` path
(image_generator.py lines 1017-1048): the formatted template prompt
(abstracted here as `fullPrompt`, since `str.format` substitution does
not affect the payload fields below) is handed to
`_generate_with_single_photo`, and the template — including any
`negative_prompt` it declares — is never consulted for the negative
prompt. -/
def generate_edit_images_payload (g : GenerationConfig)
    (_template : EditTemplate) (fullPrompt img : String) : Payload :=
  single_photo_payload g fullPrompt img

/-- Claim C3 (counterexample): an edit template that explicitly supplies
the non-empty negative prompt "no watermark" still yields a payload whose
`negative_prompt` is the standing default, contradicting the claim that
an explicitly supplied negative prompt replaces the default. -/
theorem edit_negative_prompt_counterexample :
    (generate_edit_images_payload defaultGeneration
        ⟨"Style Transfer", "ps", some "no watermark"⟩
        "prompt" "img").negative_prompt = defaultNegativePrompt ∧
    defaultNegativePrompt ≠ "no watermark" := by
  constructor
  · rfl
  · decide

/-- Claim C3 (amended): every payload builder that receives no explicit
negative prompt — `generate_single_image`, `_generate_with_single_photo`,
`_generate_with_multiple_photos`, `_generate_without_photo`, and the
`generate_edit_images` path even when its template declares one — uses
the standing default negative prompt; only the free-mode builder
`_generate_with_multiple_photos_and_prompts` accepts an explicit
negative prompt, using it verbatim when non-empty and falling back to
the default when empty. -/
theorem negative_prompt_policy (g : GenerationConfig)
    (prompt img np : String) (imgs : List String) (seed : Nat)
    (t : EditTemplate) :
    (single_image_payload g prompt img seed).negative_prompt
        = defaultNegativePrompt ∧
    (single_photo_payload g prompt img).negative_prompt
        = defaultNegativePrompt ∧
    (multiple_photos_payload g prompt imgs).negative_prompt
        = defaultNegativePrompt ∧
    (without_photo_payload g prompt).negative_prompt
        = defaultNegativePrompt ∧
    (generate_edit_images_payload g t prompt img).negative_prompt
        = defaultNegativePrompt ∧
    (multiple_photos_and_prompts_payload g prompt imgs np).negative_prompt
        = (if np == "" then defaultNegativePrompt else np) := by
  exact ⟨rfl, rfl, rfl, rfl, rfl, rfl⟩

/-! ### Mock mode and the credential gate (`GenerationClient` layer) -/

/-- Decoded image dimensions as OpenCV reports them:
`height, width = img.shape[:2]`. -/
structure RawImage where
  height : Nat
  width : Nat
deriving Repr, DecidableEq

/-- `ImageGenerator._generate_mock_response` (lines 835-858): when
sample images are enabled and the sample file exists it is copied,
otherwise a placeholder is synthesized with the hard-coded
`width, height = 1440, 2560` (line 852) and written with
`np.full((height, width, 3), ...)`. The function always returns the
output path (it never returns `None`). The second component records the
dimensions of a synthesized placeholder, `none` when a sample was
copied. -/
def generate_mock_response (useSampleImages sampleExists : Bool)
    (imageDir filename : String) : String × Option RawImage :=
  if useSampleImages && sampleExists then
    (imageDir ++ "/" ++ filename ++ ".jpg", none)
  else
    (imageDir ++ "/" ++ filename ++ ".jpg", some ⟨2560, 1440⟩)

/-- Claim C4 (code bug): in mock mode without a bundled sample the
synthesized placeholder is written at the hard-coded 1440 x 2560
(despite the adjacent comment `# Use configured dimensions`), which is
not the configured target size — 1024 x 1024 under the default
`generation` config — while the mock path does always report success
(it returns the output path for every input). -/
theorem mock_placeholder_dimensions_bug :
    (∀ u dir fn, (generate_mock_response u false dir fn).2
        = some ⟨2560, 1440⟩) ∧
    (1440 ≠ defaultGeneration.image_width.getD 1024 ∧
      2560 ≠ defaultGeneration.image_height.getD 1024) ∧
    (∀ u s dir fn, (generate_mock_response u s dir fn).1
        = dir ++ "/" ++ fn ++ ".jpg") := by
  refine ⟨?_, ⟨by decide, by decide⟩, ?_⟩
  · intro u dir fn
    cases u <;> rfl
  · intro u s dir fn
    unfold generate_mock_response
    split <;> rfl

/-- Python truthiness of `self.api_key = os.getenv("ARK_API_KEY")`:
the guard `if not self.api_key` fires when the variable is unset
(`None`) or set to the empty string. -/
def apiKeyTruthy (k : Option String) : Bool :=
  match k with
  | none => false
  | some s => !(s == "")

/-- Shape of the parsed HTTP response of the generation API, as
interpreted by `generate_single_image` / `_execute_api_request`:
transport errors and timeouts (caught exceptions), a top-level `error`
object, an empty `data` array, a per-item `error`, inline `b64_json`
(with the subsequent quality-gate verdict), a `url` (with the download
outcome and quality-gate verdict), or an item with none of the
recognized keys. -/
inductive ApiResponse where
  | transportError
  | topError (msg : String)
  | emptyData
  | itemError (msg : String)
  | b64 (validatePasses : Bool)
  | url (downloadOk : Bool) (validatePasses : Bool)
  | malformedItem
deriving Repr, DecidableEq

/-- Observable outcome of one generation call: the returned value
(`Some path` on success, `None` on failure) and the number of HTTP
requests issued (the POST plus any download GET). -/
structure CallOutcome where
  result : Option String
  httpRequests : Nat
deriving Repr, DecidableEq

/-- `ImageGenerator._execute_api_request` (lines 681-782): refuse before
any network traffic when the credential is missing, otherwise POST the
payload (one HTTP request) and interpret the response; a `url` item
issues a second HTTP request for the download; every failure shape
yields `None`. -/
def execute_api_request (apiKey : Option String) (resp : ApiResponse)
    (imageDir filename : String) : CallOutcome :=
  if !(apiKeyTruthy apiKey) then
    { result := none, httpRequests := 0 }
  else
    match resp with
    | .transportError => { result := none, httpRequests := 1 }
    | .topError _ => { result := none, httpRequests := 1 }
    | .emptyData => { result := none, httpRequests := 1 }
    | .itemError _ => { result := none, httpRequests := 1 }
    | .b64 ok =>
        { result := if ok then some (imageDir ++ "/" ++ filename ++ ".jpg")
            else none,
          httpRequests := 1 }
    | .url dl ok =>
        { result := if dl && ok
            then some (imageDir ++ "/" ++ filename ++ ".jpg") else none,
          httpRequests := 2 }
    | .malformedItem => { result := none, httpRequests := 1 }

/-- `ImageGenerator.generate_single_image` (lines 122-269): the mock
branch comes first and issues no HTTP traffic; then the credential
guard; then the inline b64/url interpretation (shared shape with
`_execute_api_request`). `mockOut` is the `_generate_mock_response`
outcome for the filename derived from the character name and index. -/
def generate_single_image (mockMode : Bool) (apiKey : Option String)
    (mockOut : String) (resp : ApiResponse)
    (imageDir filename : String) : CallOutcome :=
  if mockMode then
    { result := some mockOut, httpRequests := 0 }
  else if !(apiKeyTruthy apiKey) then
    { result := none, httpRequests := 0 }
  else
    match resp with
    | .transportError => { result := none, httpRequests := 1 }
    | .topError _ => { result := none, httpRequests := 1 }
    | .emptyData => { result := none, httpRequests := 1 }
    | .itemError _ => { result := none, httpRequests := 1 }
    | .b64 ok =>
        { result := if ok then some (imageDir ++ "/" ++ filename ++ ".jpg")
            else none,
          httpRequests := 1 }
    | .url dl ok =>
        { result := if dl && ok
            then some (imageDir ++ "/" ++ filename ++ ".jpg") else none,
          httpRequests := 2 }
    | .malformedItem => { result := none, httpRequests := 1 }

/-- `ImageGenerator._generate_with_single_photo` (lines 592-622): the
mock branch precedes everything, otherwise the payload is built and
submitted through `_execute_api_request` (whose credential guard then
applies). -/
def generate_with_single_photo (mockMode : Bool) (apiKey : Option String)
    (mockOut : String) (g : GenerationConfig) (prompt img : String)
    (resp : ApiResponse) (imageDir filename : String) : CallOutcome :=
  if mockMode then
    { result := some mockOut, httpRequests := 0 }
  else
    let _payload := single_photo_payload g prompt img
    execute_api_request apiKey resp imageDir filename

/-- Claim C5: in real (non-mock) mode with the credential unset or
empty, both `generate_single_image` and `_execute_api_request` return a
failure (`None`) and issue zero HTTP requests — the credential guard
precedes payload submission. -/
theorem missing_credential_no_http (apiKey : Option String)
    (h : apiKeyTruthy apiKey = false) (mockOut : String)
    (resp : ApiResponse) (dir fn : String) :
    (generate_single_image false apiKey mockOut resp dir fn).result = none ∧
    (generate_single_image false apiKey mockOut resp dir fn).httpRequests = 0 ∧
    (execute_api_request apiKey resp dir fn).result = none ∧
    (execute_api_request apiKey resp dir fn).httpRequests = 0 := by
  refine ⟨?_, ?_, ?_, ?_⟩ <;>
    simp [generate_single_image, execute_api_request, h]

/-- Witness for claim C5: the unset credential (`ARK_API_KEY` absent)
with a concrete response and filenames. -/
theorem missing_credential_no_http_witness :
    (generate_single_image false none "m" (.b64 true)
        "out/images" "photo_with_Iron_Man_000").result = none ∧
    (generate_single_image false none "m" (.b64 true)
        "out/images" "photo_with_Iron_Man_000").httpRequests = 0 ∧
    (execute_api_request none (.b64 true)
        "out/images" "photo_with_Iron_Man_000").result = none ∧
    (execute_api_request none (.b64 true)
        "out/images" "photo_with_Iron_Man_000").httpRequests = 0 :=
  missing_credential_no_http none (by decide) "m" (.b64 true)
    "out/images" "photo_with_Iron_Man_000"

/-- Claim C10: in mock mode the generation helpers succeed with no HTTP
traffic for every credential value — the mock branch is evaluated before
the credential guard, so an absent key never fails a mock call; the
outcome is the same whether the key is absent, empty, or set. -/
theorem mock_mode_ignores_credential (apiKey : Option String)
    (mockOut : String) (g : GenerationConfig) (prompt img : String)
    (resp : ApiResponse) (dir fn : String) :
    (generate_single_image true apiKey mockOut resp dir fn).result
        = some mockOut ∧
    (generate_single_image true apiKey mockOut resp dir fn).httpRequests = 0 ∧
    (generate_with_single_photo true apiKey mockOut g prompt img resp
        dir fn).result = some mockOut ∧
    (generate_with_single_photo true apiKey mockOut g prompt img resp
        dir fn).httpRequests = 0 ∧
    generate_single_image true apiKey mockOut resp dir fn
        = generate_single_image true none mockOut resp dir fn := by
  exact ⟨rfl, rfl, rfl, rfl, rfl⟩

/-! ### Image validation (`ImageValidator`) -/

/-- `ImageGenerator.validate_image` (lines 791-824). The decoded input
is `none` when `cv2.imread` fails (or any exception occurs — the
`except` clause also returns `False`); otherwise it carries the
dimensions and the Laplacian-variance sharpness metric, modelled as an
exact rational in place of the Python float. Mock mode accepts
unconditionally; real mode rejects either dimension under 512 and a
sharpness below the threshold 30. -/
def validate_image (mockMode : Bool)
    (decoded : Option (Nat × Nat × ℚ)) : Bool :=
  if mockMode then true
  else
    match decoded with
    | none => false
    | some (h, w, fm) =>
      if w < 512 ∨ h < 512 then false
      else if fm < 30 then false
      else true

/-- Claim C6: `validate_image` accepts exactly the decodable images with
both dimensions at least 512 whose sharpness metric is at least 30 — so
it rejects decode failures, undersized images (either dimension below
512), and images with sharpness below 30 — and in mock mode it accepts
every input unconditionally. The decoded triple is (height, width,
sharpness), in the order OpenCV reports the shape. -/
theorem validate_image_characterization (mockMode : Bool)
    (decoded : Option (Nat × Nat × ℚ)) :
    validate_image mockMode decoded = true ↔
      (mockMode = true ∨
        ∃ h w fm, decoded = some (h, w, fm) ∧
          512 ≤ w ∧ 512 ≤ h ∧ 30 ≤ fm) := by
  unfold validate_image
  cases mockMode with
  | true => simp
  | false =>
    simp only [Bool.false_eq_true, false_or, if_false]
    cases decoded with
    | none => simp
    | some t =>
      obtain ⟨h, w, fm⟩ := t
      dsimp only
      constructor
      · intro hv
        split_ifs at hv with h1 h2
        exact ⟨h, w, fm, rfl, by omega, by omega, not_lt.mp h2⟩
      · rintro ⟨h2, w2, fm2, heq, hw, hh, hf⟩
        obtain ⟨rfl, rfl, rfl⟩ : h = h2 ∧ w = w2 ∧ fm = fm2 := by
          simpa using heq
        rw [if_neg (by omega), if_neg (not_lt.mpr hf)]

/-! ### Photo preprocessing (`PhotoPreprocessor`) -/

/-- The image written to the output path by the preprocessor: its
dimensions and the JPEG quality used by `cv2.imwrite`. -/
structure SavedImage where
  height : Nat
  width : Nat
  jpegQuality : Nat
deriving Repr, DecidableEq

/-- Floor base-2 logarithm on naturals, written with an explicit
structural fuel argument so that concrete instances reduce inside the
kernel; `nlog2 n` is the position of the leading bit of `n`
(0 for `n = 0`). Used to place the binary exponents of the IEEE
double values computed by the resize below. -/
def nlog2Aux : Nat → Nat → Nat
  | 0, _ => 0
  | fuel + 1, n => if n ≤ 1 then 0 else nlog2Aux fuel (n / 2) + 1

/-- `nlog2 n` satisfies `2 ^ nlog2 n ≤ n < 2 ^ (nlog2 n + 1)` for
`n ≥ 1` (`nlog2_spec`). -/
def nlog2 (n : Nat) : Nat := nlog2Aux n n

/-- Round-half-even integer division: the integer nearest to `a / b`
with ties going to the even neighbor — the rounding IEEE 754 binary64
arithmetic applies to a significand (`b > 0`). -/
def rheDiv (a b : Nat) : Nat :=
  let q := a / b
  let r := a % b
  if 2 * r < b then q
  else if b < 2 * r then q + 1
  else if q % 2 = 0 then q else q + 1

/-- The 53-bit significand of the IEEE binary64 value of
`scale = max_size / max(height, width)` computed at
image_generator.py lines 56-57 (and 96-97): for `2^L ≤ m < 2^(L+1)`
(`L = nlog2 m`) the exact quotient `2048 / m` lies in
`[2^(10-L), 2^(11-L)]`, so scaling it by `2^(42+L)` lands the
significand window `[2^52, 2^53]` and the binary64 result is exactly
`rheDiv (2^(53+L)) m * 2^-(42+L)` — round to nearest, ties to even,
also exact when `m` is a power of two. The value stays far from
overflow and underflow, so the unbounded-exponent model is faithful. -/
def pyScaleSig (m : Nat) : Nat := rheDiv (2 ^ (53 + nlog2 m)) m

/-- `int(dim * scale)` as Python computes it at image_generator.py
lines 58-59 (and 98-99): the double product rounds
`d * scale = (d * pyScaleSig m) * 2^-(42+L)` once more to a 53-bit
significand (`j` is the excess of its bit length over 53; when the
product already fits, `j = 0` and `rheDiv N 1 = N` leaves it exact),
and `int(...)` truncates the positive result toward zero, which is the
natural-number division by `2^(42+L-j)`. Faithful for `d ≤ m`, which
is the only way the code calls it. -/
def pyResizeDim (d m : Nat) : Nat :=
  let N := d * pyScaleSig m
  let j := nlog2 N - 52
  rheDiv N (2 ^ j) / 2 ^ (42 + nlog2 m - j)

/-- `ImageGenerator.preprocess_user_photo` (lines 37-73), and its
index-suffixed twin `preprocess_user_photo_with_index` (lines 75-113)
whose image processing is line-for-line identical: read the image
(`decoded = none` models a `cv2.imread` failure or any other exception,
which the `except` clause turns into returning the original path);
when `max(height, width) > 2048`, compute
`scale = 2048 / max(height, width)` and `int(dim * scale)` in IEEE
double arithmetic (`pyResizeDim`); always write the result as JPEG at
quality 95. Returns the path handed downstream and the written image,
if any. -/
def preprocess_user_photo (inputPath outputPath : String)
    (decoded : Option RawImage) : String × Option SavedImage :=
  match decoded with
  | none => (inputPath, none)
  | some im =>
    let maxSize := 2048
    if max im.height im.width > maxSize then
      let m := max im.height im.width
      (outputPath, some ⟨pyResizeDim im.height m, pyResizeDim im.width m, 95⟩)
    else
      (outputPath, some ⟨im.height, im.width, 95⟩)

lemma nlog2Aux_spec : ∀ (fuel n : Nat), 1 ≤ n → n ≤ fuel →
    2 ^ nlog2Aux fuel n ≤ n ∧ n < 2 ^ (nlog2Aux fuel n + 1) := by
  intro fuel
  induction fuel with
  | zero => intro n h1 h2; omega
  | succ f ih =>
    intro n h1 h2
    simp only [nlog2Aux]
    by_cases hn : n ≤ 1
    · have hn1 : n = 1 := by omega
      subst hn1
      norm_num
    · rw [if_neg hn]
      have h1' : 1 ≤ n / 2 := by omega
      have h2' : n / 2 ≤ f := by omega
      obtain ⟨ha, hb⟩ := ih (n / 2) h1' h2'
      have e1 : 2 ^ (nlog2Aux f (n / 2) + 1) = 2 * 2 ^ nlog2Aux f (n / 2) := by
        ring
      have e2 : 2 ^ (nlog2Aux f (n / 2) + 1 + 1)
          = 4 * 2 ^ nlog2Aux f (n / 2) := by ring
      omega

lemma nlog2_spec (n : Nat) (hn : 1 ≤ n) :
    2 ^ nlog2 n ≤ n ∧ n < 2 ^ (nlog2 n + 1) :=
  nlog2Aux_spec n n hn le_rfl

lemma nlog2_lt_pow {n k : Nat} (hk : 0 < k) (h : n < 2 ^ k) :
    nlog2 n < k := by
  rcases Nat.eq_zero_or_pos n with rfl | hn
  · simpa [nlog2, nlog2Aux] using hk
  · by_contra hc
    push_neg at hc
    have h1 := (nlog2_spec n hn).1
    have h2 : 2 ^ k ≤ 2 ^ nlog2 n := Nat.pow_le_pow_right (by norm_num) hc
    omega

/-- The two-sided rounding bound: `rheDiv a b` is within half a unit
of `a / b`, cleared of denominators. -/
lemma rheDiv_bounds (a b : Nat) (hb : 0 < b) :
    2 * a ≤ 2 * (rheDiv a b * b) + b ∧ 2 * (rheDiv a b * b) ≤ 2 * a + b := by
  have hmod : a % b < b := Nat.mod_lt a hb
  have hdiv : b * (a / b) + a % b = a := Nat.div_add_mod a b
  have e : (a / b + 1) * b = a / b * b + b := by ring
  have e2 : b * (a / b) = a / b * b := by ring
  unfold rheDiv
  dsimp only
  split_ifs with h1 h2 h3 <;> omega

/-- Each resized dimension is at most 2048: both roundings increase the
exact value `d * 2048 / m ≤ 2048` by a relative error below `2^-52`
each, which the final truncation absorbs. -/
lemma pyResizeDim_le (m d : Nat) (hm : 2048 < m) (hd : d ≤ m) :
    pyResizeDim d m ≤ 2048 := by
  have hm0 : 0 < m := by omega
  obtain ⟨hmL, hmU⟩ := nlog2_spec m hm0
  simp only [pyResizeDim]
  set L := nlog2 m with hLdef
  set S := pyScaleSig m with hSdef
  have hSeq : S = rheDiv (2 ^ (53 + L)) m := by rw [hSdef]; rfl
  have hS := rheDiv_bounds (2 ^ (53 + L)) m hm0
  rw [← hSeq] at hS
  set N := d * S with hNdef
  have p1 : (2:ℕ) ^ (53 + L) = 2048 * 2 ^ (42 + L) := by
    rw [show 53 + L = 11 + (42 + L) by omega, pow_add]
    norm_num
  have p2 : (2:ℕ) ^ (42 + L) = 4398046511104 * 2 ^ L := by
    rw [pow_add]
    norm_num
  have p3 : (2:ℕ) ^ (L + 1) = 2 * 2 ^ L := by ring
  have p4 : (2:ℕ) ^ (54 + L) = 2 * 2 ^ (53 + L) := by
    rw [show 54 + L = 1 + (53 + L) by omega, pow_add]
    norm_num
  have hY1 : 1 ≤ (2:ℕ) ^ L := Nat.one_le_two_pow
  have hNS : N ≤ m * S := Nat.mul_le_mul_right S hd
  have hcomm : m * S = S * m := by ring
  have hNub : N ≤ 2 ^ (53 + L) + 2 ^ L := by omega
  have hNlt : N < 2 ^ (54 + L) := by omega
  have hjlt : nlog2 N < 54 + L := nlog2_lt_pow (by omega) hNlt
  set j := nlog2 N - 52 with hjdef
  have hj : j ≤ L + 1 := by omega
  have hT := rheDiv_bounds N (2 ^ j) (Nat.pos_pow_of_pos j (by norm_num))
  set T := rheDiv N (2 ^ j) with hTdef
  have hQ : (2:ℕ) ^ j ≤ 2 * 2 ^ L := by
    calc (2:ℕ) ^ j ≤ 2 ^ (L + 1) := Nat.pow_le_pow_right (by norm_num) hj
      _ = 2 * 2 ^ L := p3
  have key : T * 2 ^ j < 2049 * 2 ^ (42 + L) := by omega
  have hsplit : 2049 * 2 ^ (42 + L) = 2049 * 2 ^ (42 + L - j) * 2 ^ j := by
    rw [mul_assoc, ← pow_add, show 42 + L - j + j = 42 + L by omega]
  have hTlt : T < 2049 * 2 ^ (42 + L - j) := by
    by_contra hc
    push_neg at hc
    have h5 : 2049 * 2 ^ (42 + L - j) * 2 ^ j ≤ T * 2 ^ j :=
      Nat.mul_le_mul_right _ hc
    omega
  have hfin : T / 2 ^ (42 + L - j) < 2049 :=
    (Nat.div_lt_iff_lt_mul (Nat.pos_pow_of_pos _ (by norm_num))).mpr
      (by omega)
  omega

/-- The dimension that furnished the maximum resizes to at least 2047:
its exact scaled value is 2048, and two roundings lose less than one
unit in total. -/
lemma pyResizeDim_self_ge (m : Nat) (hm : 2048 < m) :
    2047 ≤ pyResizeDim m m := by
  have hm0 : 0 < m := by omega
  obtain ⟨hmL, hmU⟩ := nlog2_spec m hm0
  simp only [pyResizeDim]
  set L := nlog2 m with hLdef
  set S := pyScaleSig m with hSdef
  have hSeq : S = rheDiv (2 ^ (53 + L)) m := by rw [hSdef]; rfl
  have hS := rheDiv_bounds (2 ^ (53 + L)) m hm0
  rw [← hSeq] at hS
  set N := m * S with hNdef
  have p1 : (2:ℕ) ^ (53 + L) = 2048 * 2 ^ (42 + L) := by
    rw [show 53 + L = 11 + (42 + L) by omega, pow_add]
    norm_num
  have p2 : (2:ℕ) ^ (42 + L) = 4398046511104 * 2 ^ L := by
    rw [pow_add]
    norm_num
  have p3 : (2:ℕ) ^ (L + 1) = 2 * 2 ^ L := by ring
  have p4 : (2:ℕ) ^ (54 + L) = 2 * 2 ^ (53 + L) := by
    rw [show 54 + L = 1 + (53 + L) by omega, pow_add]
    norm_num
  have hY1 : 1 ≤ (2:ℕ) ^ L := Nat.one_le_two_pow
  have hcomm : m * S = S * m := by ring
  have hNub : N ≤ 2 ^ (53 + L) + 2 ^ L := by omega
  have hNlb : 2 ^ (53 + L) ≤ N + 2 ^ L := by omega
  have hNlt : N < 2 ^ (54 + L) := by omega
  have hjlt : nlog2 N < 54 + L := nlog2_lt_pow (by omega) hNlt
  set j := nlog2 N - 52 with hjdef
  have hj : j ≤ L + 1 := by omega
  have hT := rheDiv_bounds N (2 ^ j) (Nat.pos_pow_of_pos j (by norm_num))
  set T := rheDiv N (2 ^ j) with hTdef
  have hQ : (2:ℕ) ^ j ≤ 2 * 2 ^ L := by
    calc (2:ℕ) ^ j ≤ 2 ^ (L + 1) := Nat.pow_le_pow_right (by norm_num) hj
      _ = 2 * 2 ^ L := p3
  have key : 2047 * 2 ^ (42 + L) ≤ T * 2 ^ j := by omega
  have hsplit : 2047 * 2 ^ (42 + L) = 2047 * 2 ^ (42 + L - j) * 2 ^ j := by
    rw [mul_assoc, ← pow_add, show 42 + L - j + j = 42 + L by omega]
  have hTge : 2047 * 2 ^ (42 + L - j) ≤ T := by
    have hj0 : 0 < (2:ℕ) ^ j := Nat.pos_pow_of_pos j (by norm_num)
    have h5 : 2047 * 2 ^ (42 + L - j) * 2 ^ j ≤ T * 2 ^ j := by omega
    exact Nat.le_of_mul_le_mul_right h5 hj0
  exact (Nat.le_div_iff_mul_le (Nat.pos_pow_of_pos _ (by norm_num))).mpr hTge

/-- The input dimension that equals the maximum lands on 2047 or
2048. -/
lemma pyResizeDim_self (m : Nat) (hm : 2048 < m) :
    pyResizeDim m m = 2047 ∨ pyResizeDim m m = 2048 := by
  have h1 := pyResizeDim_le m m hm le_rfl
  have h2 := pyResizeDim_self_ge m hm
  omega

lemma max_two_val {a b : Nat} (ha : a = 2047 ∨ a = 2048) (hb : b ≤ 2048) :
    max a b = 2047 ∨ max a b = 2048 := by
  rcases Nat.le_total a b with hd | hd
  · rw [Nat.max_eq_right hd]; omega
  · rw [Nat.max_eq_left hd]; omega

/-- Claim C8 (counterexample): a 2215 x 2215 input is downsampled to
2047 x 2047 — in IEEE double arithmetic
`int(2215 * (2048 / 2215)) = 2047` — so the resized larger dimension
is not 2048, refuting the claim that the larger dimension becomes
2048. -/
theorem preprocess_resize_2047 :
    preprocess_user_photo "selfie.jpg" "processed_user_photo.jpg"
        (some ⟨2215, 2215⟩)
      = ("processed_user_photo.jpg", some ⟨2047, 2047, 95⟩) ∧
    (2047 : Nat) ≠ 2048 :=
  ⟨by decide, by decide⟩

/-- Claim C8 (amended): preprocessing resizes exactly when the larger
dimension exceeds 2048 — leaving the dimensions untouched otherwise —
the output is always re-encoded as JPEG at quality 95, a read or
processing failure returns the original input path with nothing
written, and the resize, which computes `int(dim * (2048 / max))` in
IEEE double arithmetic, makes the larger output dimension 2048 or,
when the two roundings fall short of the exact value, 2047. -/
theorem preprocess_user_photo_spec (inputPath outputPath : String) :
    (preprocess_user_photo inputPath outputPath none = (inputPath, none)) ∧
    (∀ h w : Nat, max h w ≤ 2048 →
      preprocess_user_photo inputPath outputPath (some ⟨h, w⟩)
        = (outputPath, some ⟨h, w, 95⟩)) ∧
    (∀ h w : Nat, 2048 < max h w →
      preprocess_user_photo inputPath outputPath (some ⟨h, w⟩)
          = (outputPath,
              some ⟨pyResizeDim h (max h w), pyResizeDim w (max h w), 95⟩) ∧
        (max (pyResizeDim h (max h w)) (pyResizeDim w (max h w)) = 2047 ∨
          max (pyResizeDim h (max h w)) (pyResizeDim w (max h w)) = 2048)) := by
  refine ⟨rfl, ?_, ?_⟩
  · intro h w hle
    unfold preprocess_user_photo
    dsimp only
    rw [if_neg (by omega)]
  · intro h w hgt
    refine ⟨?_, ?_⟩
    · unfold preprocess_user_photo
      dsimp only
      rw [if_pos (by omega)]
    · have hself := pyResizeDim_self (max h w) hgt
      have hh : pyResizeDim h (max h w) ≤ 2048 :=
        pyResizeDim_le _ _ hgt (Nat.le_max_left h w)
      have hw2 : pyResizeDim w (max h w) ≤ 2048 :=
        pyResizeDim_le _ _ hgt (Nat.le_max_right h w)
      rcases max_choice h w with hm | hm
      · rw [hm] at hself hh hw2 ⊢
        exact max_two_val hself hw2
      · rw [hm] at hself hh hw2 ⊢
        rw [Nat.max_comm]
        exact max_two_val hself hh

/-- Witness for claim C8: a 1024 x 768 photo passes through with its
dimensions intact, and a 2215 x 2215 photo is resized with its larger
output dimension equal to 2047 or 2048; both are written at JPEG
quality 95. -/
theorem preprocess_user_photo_spec_witness :
    (preprocess_user_photo "selfie.jpg" "processed_user_photo.jpg"
        (some ⟨1024, 768⟩)
        = ("processed_user_photo.jpg", some ⟨1024, 768, 95⟩)) ∧
    (preprocess_user_photo "selfie.jpg" "processed_user_photo.jpg"
        (some ⟨2215, 2215⟩)
        = ("processed_user_photo.jpg",
            some ⟨pyResizeDim 2215 (max 2215 2215),
              pyResizeDim 2215 (max 2215 2215), 95⟩) ∧
      (max (pyResizeDim 2215 (max 2215 2215))
          (pyResizeDim 2215 (max 2215 2215)) = 2047 ∨
        max (pyResizeDim 2215 (max 2215 2215))
          (pyResizeDim 2215 (max 2215 2215)) = 2048)) :=
  ⟨(preprocess_user_photo_spec "selfie.jpg" "processed_user_photo.jpg").2.1
      1024 768 (by decide),
   (preprocess_user_photo_spec "selfie.jpg" "processed_user_photo.jpg").2.2
      2215 2215 (by decide)⟩

/-! ### Session state (`SessionState`) -/

/-- JSON values, as stored in `temp/generation_state.json`. Python
`json.load` / `json.dump` are modelled at the value level: a disk file
is absent, unparseable, or holds a JSON value; `json.dump` writes the
value and `json.load` returns it (value round-tripping is the contract
of the Python standard library, which is external to this codebase). -/
inductive JsonVal where
  | null
  | bool (b : Bool)
  | num (n : Int)
  | str (s : String)
  | arr (elems : List JsonVal)
  | obj (fields : List (String × JsonVal))

/-- The default state document returned by
`InteractionManager._load_state` (interaction.py lines 26-34). -/
def defaultState : JsonVal :=
  .obj [("step", .str "initial"),
        ("user_photo", .null),
        ("selected_characters", .arr []),
        ("image_count", .num 5),
        ("generated_images", .arr []),
        ("image_order", .arr []),
        ("confirmed", .bool false)]

/-- The state file on disk: `none` when the file does not exist,
`some none` when it exists but `json.load` raises `JSONDecodeError`,
`some (some v)` when it parses to the value `v`. -/
def StateDisk : Type := Option (Option JsonVal)

/-- `InteractionManager._load_state` (lines 18-34): if the file exists
and parses, return its value; a missing file or a `JSONDecodeError`
(swallowed by the `except` clause) yields the default document. -/
def load_state (d : StateDisk) : JsonVal :=
  match d with
  | some (some v) => v
  | _ => defaultState

/-- `InteractionManager._save_state` (lines 36-40): serialize
`current_state` over the file; afterwards the file exists and parses to
exactly the saved value. -/
def save_state (v : JsonVal) : StateDisk :=
  some (some v)

/-- Claim C9: loading when the backing file is missing or corrupt
returns the documented default document (step "initial", null
user_photo, empty selected_characters, image_count 5, empty
generated_images and image_order, confirmed false) — totality of
`load_state` models that no exception escapes — and saving the loaded
state back leaves the on-disk JSON content equivalent to what was
loaded: a parseable file is reproduced exactly, and in every case a
reload after `save(load())` yields the same document as the original
load. -/
theorem session_state_round_trip :
    load_state none = defaultState ∧
    load_state (some none) = defaultState ∧
    defaultState
      = .obj [("step", .str "initial"),
              ("user_photo", .null),
              ("selected_characters", .arr []),
              ("image_count", .num 5),
              ("generated_images", .arr []),
              ("image_order", .arr []),
              ("confirmed", .bool false)] ∧
    (∀ v : JsonVal, save_state (load_state (some (some v))) = some (some v)) ∧
    (∀ d : StateDisk, load_state (save_state (load_state d)) = load_state d) :=
  ⟨rfl, rfl, rfl, fun _ => rfl, fun d => by
    match d with
    | none => rfl
    | some none => rfl
    | some (some _) => rfl⟩

/-! ### Multi-person prompt composition (`PromptComposer`) -/

/-- A background entry from the scenario data files, read with
`dict.get` in the generators. -/
structure Background where
  name : Option String
  prompt : Option String
deriving Repr, DecidableEq

/-- A couple pose/type entry, read with `dict.get` in
`generate_couple_images`. -/
structure CoupleType where
  prompt : Option String
  scene : Option String
  atmosphere : Option String
  attire : Option String
deriving Repr, DecidableEq

/-- A family template entry, read with `dict.get` in
`generate_family_images`. -/
structure FamilyTemplate where
  prompt : Option String
  scene : Option String
  atmosphere : Option String
  attire : Option String
deriving Repr, DecidableEq

/-- The `background_desc` logic of `generate_couple_images`
(lines 419-425): a custom background wins; otherwise the couple scene
when truthy (Python `elif couple_type.get('scene'):` — an empty string
is falsy); otherwise empty. -/
def background_desc_couple (ct : CoupleType) (bg : Option Background) :
    String :=
  match bg with
  | some b => b.prompt.getD "natural scenery"
  | none =>
    match ct.scene with
    | some s => if s == "" then "" else s
    | none => ""

/-- The prompt composed by `generate_couple_images` (lines 427-443),
with every f-string piece reproduced verbatim. -/
def couple_prompt_text (ct : CoupleType) (bg : Option Background) :
    String :=
  let couplePrompt := ct.prompt.getD "romantic couple"
  let scene := ct.scene.getD "outdoor park or urban setting"
  let atmosphere := ct.atmosphere.getD "romantic, intimate"
  let attire := ct.attire.getD "coordinated outfits suitable for couple"
  let backgroundDesc := background_desc_couple ct bg
  "Two people portrait, " ++ couplePrompt ++ ". " ++
  "CRITICAL: Extract facial features and gender from EACH input photo separately. " ++
  "Person 1: Use facial features and gender from FIRST input photo only. " ++
  "Person 2: Use facial features and gender from SECOND input photo only. " ++
  "DO NOT assume genders - detect them from the reference photos accurately. " ++
  "DO NOT default to male/female - match the actual genders in input photos. " ++
  "Scene: " ++ scene ++ ". " ++
  "Atmosphere: " ++ atmosphere ++ ". " ++
  "Attire: " ++ attire ++ ". " ++
  "Background: " ++
    (if backgroundDesc == "" then "natural scenery" else backgroundDesc) ++
    ". " ++
  "IMPORTANT: Position Person 1 and Person 2 correctly according to the pose description. " ++
  "Generate completely new body positions, poses, and backgrounds - do NOT preserve input photo poses or environments. " ++
  "Use ONLY facial features and gender from reference photos - ignore all clothing, backgrounds, and original poses. " ++
  "Professional portrait photography, high quality lighting. " ++
  "High quality, detailed faces, realistic skin texture, 8k resolution, photorealistic."

/-- One per-photo extraction clause of `generate_family_images`
(lines 522-525): the comprehension body, binding person j+1 to input
photo number j+1. -/
def family_extraction_clause (j : Nat) : String :=
  "Person " ++ toString (j + 1) ++
  ": Extract facial features, gender, age, and appearance from input photo #" ++
  toString (j + 1) ++ " only."

/-- The `people_instructions` list comprehension of
`generate_family_images` (lines 522-525): one clause per person index
`j in range(person_count)`. -/
def family_people_instructions (personCount : Nat) : List String :=
  (List.range personCount).map family_extraction_clause

/-- The `person_count_instructions` chain of `generate_family_images`
(lines 527-538): spelled out for 2..6 people, empty otherwise. -/
def family_person_count_instructions (personCount : Nat) : String :=
  if personCount == 2 then
    "Person 1 must match input photo #1. Person 2 must match input photo #2."
  else if personCount == 3 then
    "Person 1 must match input photo #1. Person 2 must match input photo #2. Person 3 must match input photo #3."
  else if personCount == 4 then
    "Person 1 must match input photo #1. Person 2 must match input photo #2. Person 3 must match input photo #3. Person 4 must match input photo #4."
  else if personCount == 5 then
    "Person 1 must match input photo #1. Person 2 must match input photo #2. Person 3 must match input photo #3. Person 4 must match input photo #4. Person 5 must match input photo #5."
  else if personCount == 6 then
    "Person 1 must match input photo #1. Person 2 must match input photo #2. Person 3 must match input photo #3. Person 4 must match input photo #4. Person 5 must match input photo #5. Person 6 must match input photo #6."
  else ""

/-- The `background_desc` logic of `generate_family_images`
(lines 513-519). -/
def background_desc_family (ft : FamilyTemplate) (bg : Option Background) :
    String :=
  match bg with
  | some b => b.prompt.getD "warm home setting"
  | none =>
    match ft.scene with
    | some s => if s == "" then "" else s
    | none => ""

/-- The prompt composed by `generate_family_images` (lines 508-559),
with every f-string piece reproduced verbatim;
`people_instructions` is joined with `" ".join(...)`. -/
def family_prompt_text (ft : FamilyTemplate) (bg : Option Background)
    (personCount : Nat) : String :=
  let templatePrompt := ft.prompt.getD "happy family portrait"
  let scene := ft.scene.getD "warm home setting"
  let atmosphere := ft.atmosphere.getD "warm and loving"
  let attire := ft.attire.getD "coordinated casual family outfits"
  let backgroundDesc := background_desc_family ft bg
  let peopleInstructions :=
    String.intercalate " " (family_people_instructions personCount)
  let personCountInstructions :=
    family_person_count_instructions personCount
  "Family portrait with EXACTLY " ++ toString personCount ++ " people. " ++
  "MUST GENERATE EXACTLY " ++ toString personCount ++
    " PEOPLE - NO MORE, NO FEWER. " ++
  "Each person must be clearly visible and distinct. " ++
  templatePrompt ++ ". " ++
  peopleInstructions ++ " " ++
  "CRITICAL: Extract facial features and gender from EACH input photo separately. " ++
  "Detect actual genders, ages, and appearances from ALL input photos accurately. " ++
  "MUST create EXACTLY " ++ toString personCount ++
    " persons based on the " ++ toString personCount ++ " input photos. " ++
  personCountInstructions ++ " " ++
  "Position all " ++ toString personCount ++
    " persons correctly according to family portrait arrangement. " ++
  "Scene: " ++ scene ++ ". " ++
  "Atmosphere: " ++ atmosphere ++ ". " ++
  "Attire: " ++ attire ++ ". " ++
  "Background: " ++
    (if backgroundDesc == "" then "warm home setting" else backgroundDesc) ++
    ". " ++
  "IMPORTANT: Generate completely new body positions, poses, and backgrounds - do NOT preserve input photo poses or environments. " ++
  "Use ONLY facial features, gender, and age from reference photos - ignore all clothing, backgrounds, and original poses. " ++
  "Professional portrait photography, perfect lighting. " ++
  "High quality, detailed faces, realistic skin texture, 8k resolution, photorealistic."

set_option maxRecDepth 40000 in
/-- Claim C7 (counterexample): the couple prompt for a concrete couple
generation (default pose fields, no custom background, 2 input photos,
person count 2 known) contains no occurrence of the string "EXACTLY" at
all, hence no explicit "EXACTLY N people, no more no fewer" count
assertion, although the person count is known to be 2. -/
theorem couple_exactly_assertion_missing :
    ¬ (("EXACTLY".data)
        <:+: (couple_prompt_text ⟨none, none, none, none⟩ none).data) := by
  intro hinf
  have hx : 'X' ∈ (couple_prompt_text ⟨none, none, none, none⟩ none).data :=
    hinf.subset (by decide)
  revert hx
  decide

lemma infix_append_right {α : Type} (t : List α) {m r : List α}
    (h : m <:+: r) : m <:+: r ++ t := by
  obtain ⟨a, b, rfl⟩ := h
  exact ⟨a, b ++ t, by simp [List.append_assoc]⟩

lemma suffix_here {α : Type} (s m : List α) : m <:+: s ++ m :=
  ⟨s, [], by simp⟩

lemma suffix_chain2 {α : Type} (s a b : List α) :
    a ++ b <:+: (s ++ a) ++ b :=
  ⟨s, [], by simp [List.append_assoc]⟩

lemma suffix_chain3 {α : Type} (s a b c : List α) :
    (a ++ b) ++ c <:+: ((s ++ a) ++ b) ++ c :=
  ⟨s, [], by simp [List.append_assoc]⟩

/-- Claim C7 (amended): for family generations with K input photos
(`person_count = K`, as every caller passes `len(photo_paths)`), the
composed prompt contains exactly K person-extraction clauses — the
clause list has length K, its j-th element binds person j+1 to input
photo number j+1 and directs the model to extract gender, age and
appearance from that photo only — joined verbatim into the prompt,
together with the explicit "EXACTLY K PEOPLE - NO MORE, NO FEWER"
count assertion. The couple prompt contains its two fixed extraction
clauses, one per input photo, binding person 1 to the first photo and
person 2 to the second (with a separate directive to detect rather than
assume genders), but — per the counterexample — no "EXACTLY N people"
count assertion. -/
theorem multi_person_prompt_structure (K : Nat) (ft : FamilyTemplate)
    (bg : Option Background) (ct : CoupleType) (bg2 : Option Background) :
    (family_people_instructions K).length = K ∧
    (∀ j : Nat, (family_people_instructions K).get? j
        = if j < K then
            some ("Person " ++ toString (j + 1) ++
              ": Extract facial features, gender, age, and appearance from input photo #" ++
              toString (j + 1) ++ " only.")
          else none) ∧
    ((String.intercalate " " (family_people_instructions K)).data
        <:+: (family_prompt_text ft bg K).data) ∧
    (("MUST GENERATE EXACTLY " ++ toString K ++
        " PEOPLE - NO MORE, NO FEWER. ").data
        <:+: (family_prompt_text ft bg K).data) ∧
    (("Person 1: Use facial features and gender from FIRST input photo only. " ++
        "Person 2: Use facial features and gender from SECOND input photo only. ").data
        <:+: (couple_prompt_text ct bg2).data) := by
  refine ⟨?_, ?_, ?_, ?_, ?_⟩
  · simp [family_people_instructions]
  · intro j
    by_cases hj : j < K
    · rw [if_pos hj]
      unfold family_people_instructions
      rw [List.get?_map, List.get?_range hj]
      rfl
    · rw [if_neg hj]
      unfold family_people_instructions
      rw [List.get?_map,
        List.get?_eq_none.mpr (by simp only [List.length_range]; omega)]
      rfl
  · simp only [family_prompt_text, String.data_append]
    apply infix_append_right
    apply infix_append_right
    apply infix_append_right
    apply infix_append_right
    apply infix_append_right
    apply infix_append_right
    apply infix_append_right
    apply infix_append_right
    apply infix_append_right
    apply infix_append_right
    apply infix_append_right
    apply infix_append_right
    apply infix_append_right
    apply infix_append_right
    apply infix_append_right
    apply infix_append_right
    apply infix_append_right
    apply infix_append_right
    apply infix_append_right
    apply infix_append_right
    apply infix_append_right
    apply infix_append_right
    apply infix_append_right
    apply infix_append_right
    apply infix_append_right
    apply infix_append_right
    apply infix_append_right
    apply infix_append_right
    apply infix_append_right
    exact suffix_here _ _
  · simp only [family_prompt_text, String.data_append]
    apply infix_append_right
    apply infix_append_right
    apply infix_append_right
    apply infix_append_right
    apply infix_append_right
    apply infix_append_right
    apply infix_append_right
    apply infix_append_right
    apply infix_append_right
    apply infix_append_right
    apply infix_append_right
    apply infix_append_right
    apply infix_append_right
    apply infix_append_right
    apply infix_append_right
    apply infix_append_right
    apply infix_append_right
    apply infix_append_right
    apply infix_append_right
    apply infix_append_right
    apply infix_append_right
    apply infix_append_right
    apply infix_append_right
    apply infix_append_right
    apply infix_append_right
    apply infix_append_right
    apply infix_append_right
    apply infix_append_right
    apply infix_append_right
    apply infix_append_right
    apply infix_append_right
    apply infix_append_right
    apply infix_append_right
    exact suffix_chain3 _ _ _ _
  · simp only [couple_prompt_text, String.data_append]
    apply infix_append_right
    apply infix_append_right
    apply infix_append_right
    apply infix_append_right
    apply infix_append_right
    apply infix_append_right
    apply infix_append_right
    apply infix_append_right
    apply infix_append_right
    apply infix_append_right
    apply infix_append_right
    apply infix_append_right
    apply infix_append_right
    apply infix_append_right
    apply infix_append_right
    apply infix_append_right
    apply infix_append_right
    apply infix_append_right
    apply infix_append_right
    exact suffix_chain2 _ _ _


end PhotoStudio
